import Mathlib

/-!
Shallow embedding of the versioned-database core
(`src/versioned-db.go`, package `version`) and of the sibling
implementation of `persistSchemeInternal` found in
`src/unnamed/part_000`.

Modelling choices:
- Go `int` versions become `Int`.
- Errors become `Option String` (`none` = Go `nil` error); the exact
  message strings of the source are kept, so "error returned verbatim"
  is string equality.
- The registry (`versionDrivers` map) is an association list from
  strategy name to an opaque strategy tag (`Nat`); `Register`'s panics
  become the `Option String` second component of its result, with the
  registry returned unchanged on panic.
- The outcomes of the external collaborators (`db.Begin`,
  `strategy.Version`, `scheme.OnCreate`, `scheme.OnUpdate`,
  `strategy.SetVersion`) are supplied by an `Env` oracle: each field is
  `none` when that operation succeeds and `some e` when it fails with
  error `e`. Each operation is invoked at most once per call, so one
  outcome per operation suffices.
- The backend's durable stored version is `DBState`; a successful
  `SetVersion` sets it to the written value, a failed one leaves it
  unchanged, mirroring the version-storage contract.
- Every externally observable operation is recorded, in invocation
  order, in a `List Event` trace returned alongside the final state and
  the returned error.
-/

/-- Observable operations of one `PersistScheme` call, in invocation
order: the backend version read, `db.Begin`, the two callbacks, the
backend version write, `tx.Commit` and `tx.Rollback`. -/
inductive Event where
  | readVersion : Event
  | beginTx : Event
  | onCreate : Event
  | onUpdate : Int → Event
  | setVersion : Int → Event
  | commit : Event
  | rollback : Event
deriving DecidableEq

/-- The durable state owned by the version-storage backend: the stored
schema version (0 when no version has been recorded). -/
structure DBState where
  storedVersion : Int
deriving DecidableEq

/-- Outcome oracle for the external collaborators of one call:
`none` means the operation succeeds, `some e` that it fails with `e`. -/
structure Env where
  readErr : Option String
  beginErr : Option String
  createErr : Option String
  updateErr : Option String
  setVersionErr : Option String
deriving DecidableEq

/-- The data of a `Scheme` value: `Version()` and `VersionStrategy()`.
The `OnCreate`/`OnUpdate` bodies are external, so their outcomes live
in `Env`. -/
structure SchemeModel where
  version : Int
  versionStrategy : String
deriving DecidableEq

/-- The `versionDrivers` map: strategy name to opaque strategy tag. -/
abbrev Registry := List (String × Nat)

/-- Embedding of `strategyFromString` (src/versioned-db.go): registry
lookup returning `none` for an unregistered name. -/
def strategyFromString (reg : Registry) (name : String) : Option Nat :=
  match reg.find? (fun p => p.fst == name) with
  | some p => some p.snd
  | none => none

/-- Embedding of `Register` (src/versioned-db.go). The Go function
panics on a nil strategy, and on a duplicate name before inserting;
the panic is modelled as `some message` in the second component, with
the registry returned unchanged. -/
def Register (reg : Registry) (name : String) (strategy : Option Nat) :
    Registry × Option String :=
  match strategy with
  | none => (reg, some ("versioned db: Register strategy is nil"))
  | some s =>
    match strategyFromString reg name with
    | some _ =>
        (reg, some ("versioned db: Register called twice for strategy " ++ name))
    | none => ((name, s) :: reg, none)

/-- Embedding of the `finalize` label of `persistSchemeInternal`
(src/versioned-db.go): on a callback error, roll back and return it;
otherwise `tx.Commit()` (result discarded by the source), then
`return strategy.SetVersion(db, version)`. -/
def finalize (env : Env) (version : Int) (st : DBState)
    (trace : List Event) (cbErr : Option String) :
    List Event × DBState × Option String :=
  match cbErr with
  | some e => (trace ++ [Event.rollback], st, some e)
  | none =>
    match env.setVersionErr with
    | some e => (trace ++ [Event.commit, Event.setVersion version], st, some e)
    | none => (trace ++ [Event.commit, Event.setVersion version], ⟨version⟩, none)

/-- Embedding of `persistSchemeInternal` (src/versioned-db.go):
read the stored version via `strategy.Version(db)` (propagating a read
error), then `db.Begin()` (propagating a begin error), then branch on
the read version: 0 selects `OnCreate`, below target selects
`OnUpdate(dbVersion)`, otherwise roll back and return nil. -/
def persistSchemeInternal (env : Env) (st : DBState) (version : Int) :
    List Event × DBState × Option String :=
  match env.readErr with
  | some e => ([Event.readVersion], st, some e)
  | none =>
    match env.beginErr with
    | some e => ([Event.readVersion, Event.beginTx], st, some e)
    | none =>
      if st.storedVersion = 0 then
        finalize env version st
          [Event.readVersion, Event.beginTx, Event.onCreate] env.createErr
      else if st.storedVersion < version then
        finalize env version st
          [Event.readVersion, Event.beginTx, Event.onUpdate st.storedVersion]
          env.updateErr
      else
        ([Event.readVersion, Event.beginTx, Event.rollback], st, none)

/-- Embedding of `PersistScheme` (src/versioned-db.go): validation
(nil db, nil scheme, version below one, unregistered strategy name, in
that order), then `persistSchemeInternal`. The db handle is
`Option Unit` (`none` = nil pointer). -/
def PersistScheme (reg : Registry) (db : Option Unit)
    (scheme : Option SchemeModel) (env : Env) (st : DBState) :
    List Event × DBState × Option String :=
  match db with
  | none => ([], st, some ("versioned db: db is nil"))
  | some _ =>
    match scheme with
    | none => ([], st, some ("versioned db: scheme is nil"))
    | some s =>
      if s.version < 1 then
        ([], st, some ("versioned db: version is less then one"))
      else
        match strategyFromString reg s.versionStrategy with
        | none =>
            ([], st, some ("versioned db: unknown v scheme \"" ++
              s.versionStrategy ++ "\" (forgotten import?)"))
        | some _ => persistSchemeInternal env st s.version

/-- The validation front matter of `PersistScheme`, as a standalone
ordered check (nil db first, then nil scheme, then version below one,
then unregistered strategy): `some e` is the error the first failing
check produces, `none` means validation passes. -/
def validationError (reg : Registry) (db : Option Unit)
    (scheme : Option SchemeModel) : Option String :=
  match db with
  | none => some ("versioned db: db is nil")
  | some _ =>
    match scheme with
    | none => some ("versioned db: scheme is nil")
    | some s =>
      if s.version < 1 then
        some ("versioned db: version is less then one")
      else
        match strategyFromString reg s.versionStrategy with
        | none =>
            some ("versioned db: unknown v scheme \"" ++
              s.versionStrategy ++ "\" (forgotten import?)")
        | some _ => none

/-- Embedding of the `finalize` label of the sibling
`persistSchemeInternal` in src/unnamed/part_000: run the chosen
callback, on error roll back; then `strategy.SetVersion`, on error
roll back; then `tx.Commit()`. -/
def finalizeAlt (env : Env) (version : Int) (st : DBState)
    (trace : List Event) (cbErr : Option String) :
    List Event × DBState × Option String :=
  match cbErr with
  | some e => (trace ++ [Event.rollback], st, some e)
  | none =>
    match env.setVersionErr with
    | some e => (trace ++ [Event.setVersion version, Event.rollback], st, some e)
    | none => (trace ++ [Event.setVersion version, Event.commit], ⟨version⟩, none)

/-- Embedding of `persistSchemeInternal` from src/unnamed/part_000:
`db.Begin()` first, then the version read inside the transaction
(rolling back on a read error), the same three-way branch, with
`SetVersion` before `tx.Commit()` and a rollback on every error
path. -/
def persistSchemeInternalAlt (env : Env) (st : DBState) (version : Int) :
    List Event × DBState × Option String :=
  match env.beginErr with
  | some e => ([Event.beginTx], st, some e)
  | none =>
    match env.readErr with
    | some e => ([Event.beginTx, Event.readVersion, Event.rollback], st, some e)
    | none =>
      if st.storedVersion = 0 then
        finalizeAlt env version st
          [Event.beginTx, Event.readVersion, Event.onCreate] env.createErr
      else if st.storedVersion < version then
        finalizeAlt env version st
          [Event.beginTx, Event.readVersion, Event.onUpdate st.storedVersion]
          env.updateErr
      else
        ([Event.beginTx, Event.readVersion, Event.rollback], st, none)

/-- An environment in which every external operation succeeds. -/
def okEnv : Env := ⟨none, none, none, none, none⟩

/-- A one-entry registry holding the strategy name "fake", as in the
repository's test setup. -/
def reg0 : Registry := [("fake", 0)]

/-- Claim C1: the claim states that when the callback succeeds and the
subsequent `SetVersion` fails, the whole unit rolls back, the error is
returned, and the schema mutation does not persist. Evaluating the
embedding of src/versioned-db.go at such an input (stored version 0,
target 1, `SetVersion` failing with "SomeError") shows the code
commits the transaction before attempting the write and issues no
rollback, while the sibling implementation in src/unnamed/part_000
writes before committing and rolls back as the claim requires. -/
theorem setVersionFailure_commits_noRollback :
    PersistScheme reg0 (some ()) (some ⟨1, "fake"⟩)
        ⟨none, none, none, none, some ("SomeError")⟩ ⟨0⟩ =
      ([Event.readVersion, Event.beginTx, Event.onCreate, Event.commit,
        Event.setVersion 1], ⟨0⟩, some ("SomeError")) ∧
    persistSchemeInternalAlt ⟨none, none, none, none, some ("SomeError")⟩ ⟨0⟩ 1 =
      ([Event.beginTx, Event.readVersion, Event.onCreate, Event.setVersion 1,
        Event.rollback], ⟨0⟩, some ("SomeError")) :=
  ⟨rfl, rfl⟩

/-- Claim C2: the claim states that on the success path the version
read strictly precedes the callback, which strictly precedes the
version write, which strictly precedes the commit. Evaluating the
embedding of src/versioned-db.go on an all-success create run shows
the commit strictly precedes the version write; the sibling
implementation in src/unnamed/part_000 produces exactly the claimed
order. -/
theorem successPath_commit_precedes_setVersion :
    (PersistScheme reg0 (some ()) (some ⟨1, "fake"⟩) okEnv ⟨0⟩).fst =
      [Event.readVersion, Event.beginTx, Event.onCreate, Event.commit,
        Event.setVersion 1] ∧
    (persistSchemeInternalAlt okEnv ⟨0⟩ 1).fst =
      [Event.beginTx, Event.readVersion, Event.onCreate, Event.setVersion 1,
        Event.commit] :=
  ⟨rfl, rfl⟩

/-- Claim C3: the claim states the create run invokes `OnCreate`, then
persists the target version, then commits, and returns success.
Evaluating the embedding of src/versioned-db.go at stored version 0,
target 1, all operations succeeding: `OnCreate` is invoked, the target
version is persisted (final stored version 1) and the call returns
success, but the commit is issued before the version write, not
after it. -/
theorem createPath_run :
    PersistScheme reg0 (some ()) (some ⟨1, "fake"⟩) okEnv ⟨0⟩ =
      ([Event.readVersion, Event.beginTx, Event.onCreate, Event.commit,
        Event.setVersion 1], ⟨1⟩, none) :=
  rfl

/-- Claim C4: the claim states the update run invokes `OnUpdate` with
the stored version that was read, persists the target version, commits,
and returns success — in that order. Evaluating the embedding of
src/versioned-db.go at stored version 1, target 2, all operations
succeeding: `OnUpdate` receives exactly 1, the final stored version is
2 and the call returns success, but the commit is issued before the
version write. -/
theorem updatePath_run :
    PersistScheme reg0 (some ()) (some ⟨2, "fake"⟩) okEnv ⟨1⟩ =
      ([Event.readVersion, Event.beginTx, Event.onUpdate 1, Event.commit,
        Event.setVersion 2], ⟨2⟩, none) :=
  rfl

/-- When validation passes and both the version read and `db.Begin`
succeed with a stored version at or above the target, the run is the
rollback no-op: shared helper for the no-op and idempotence facts. -/
theorem run_noop_helper (reg : Registry) (tag : Nat) (name : String)
    (env : Env) (st : DBState) (target : Int)
    (hreg : strategyFromString reg name = some tag)
    (ht : 1 ≤ target) (hv : target ≤ st.storedVersion)
    (hr : env.readErr = none) (hb : env.beginErr = none) :
    PersistScheme reg (some ()) (some ⟨target, name⟩) env st =
      ([Event.readVersion, Event.beginTx, Event.rollback], st, none) := by
  have h1 : ¬ (target < 1) := by omega
  have h0 : ¬ (st.storedVersion = 0) := by omega
  have h2 : ¬ (st.storedVersion < target) := by omega
  simp [PersistScheme, hreg, persistSchemeInternal, hr, hb, h1, h0, h2]

/-- Claim C5: for every valid input whose stored version is at or above
the target (strictly greater included), with the version read and
`db.Begin` succeeding, `PersistScheme` invokes neither callback, never
writes a version, rolls back the opened transaction, leaves the stored
version unchanged and returns success. -/
theorem persistScheme_noopWhenCurrent (reg : Registry) (tag : Nat)
    (name : String) (env : Env) (st : DBState) (target : Int)
    (hreg : strategyFromString reg name = some tag)
    (ht : 1 ≤ target) (hv : target ≤ st.storedVersion)
    (hr : env.readErr = none) (hb : env.beginErr = none) :
    PersistScheme reg (some ()) (some ⟨target, name⟩) env st =
      ([Event.readVersion, Event.beginTx, Event.rollback], st, none) :=
  run_noop_helper reg tag name env st target hreg ht hv hr hb

/-- Witness for C5 at stored version 2, target 1 (strictly greater). -/
theorem persistScheme_noopWhenCurrent_w :
    PersistScheme reg0 (some ()) (some ⟨1, "fake"⟩) okEnv ⟨2⟩ =
      ([Event.readVersion, Event.beginTx, Event.rollback], ⟨2⟩, none) :=
  persistScheme_noopWhenCurrent reg0 0 "fake" okEnv ⟨2⟩ 1 rfl (by decide)
    (by decide) rfl rfl

/-- Claim C6: for every invalid input — nil db, nil scheme, target
version below 1, or an unregistered strategy name, checked in that
order — `PersistScheme` returns the corresponding descriptive error
with an empty trace: no transaction is opened and no backend read,
callback or version write occurs, and the stored version is
untouched. -/
theorem persistScheme_invalidInput (reg : Registry) (db : Option Unit)
    (scheme : Option SchemeModel) (env : Env) (st : DBState) (e : String)
    (h : validationError reg db scheme = some e) :
    PersistScheme reg db scheme env st = ([], st, some e) := by
  cases db with
  | none =>
    simp only [validationError, Option.some.injEq] at h
    simp [PersistScheme, ← h]
  | some u =>
    cases scheme with
    | none =>
      simp only [validationError, Option.some.injEq] at h
      simp [PersistScheme, ← h]
    | some s =>
      by_cases hv : s.version < 1
      · simp only [validationError, hv, if_true, Option.some.injEq] at h
        simp [PersistScheme, hv, ← h]
      · cases hs : strategyFromString reg s.versionStrategy with
        | none =>
          simp only [validationError, hv, if_false, hs, Option.some.injEq] at h
          simp [PersistScheme, hv, hs, ← h]
        | some tag =>
          simp only [validationError, hv, if_false, hs] at h
          exact Option.noConfusion h

/-- Witness for C6: nil db (with the scheme also nil, showing the db
check comes first). -/
theorem persistScheme_invalidInput_w :
    PersistScheme [] none none okEnv ⟨0⟩ =
      ([], ⟨0⟩, some ("versioned db: db is nil")) :=
  persistScheme_invalidInput [] none none okEnv ⟨0⟩
    ("versioned db: db is nil") rfl

/-- Claim C7: for every valid call whose chosen create or update
callback fails, the transaction is rolled back, `SetVersion` is never
invoked, the stored version is unchanged, and the returned error is
the callback's error verbatim. -/
theorem persistScheme_callbackError (reg : Registry) (tag : Nat)
    (name : String) (env : Env) (st : DBState) (target : Int) (e : String)
    (hreg : strategyFromString reg name = some tag)
    (ht : 1 ≤ target)
    (hr : env.readErr = none) (hb : env.beginErr = none) :
    (st.storedVersion = 0 → env.createErr = some e →
      PersistScheme reg (some ()) (some ⟨target, name⟩) env st =
        ([Event.readVersion, Event.beginTx, Event.onCreate, Event.rollback],
          st, some e)) ∧
    (st.storedVersion ≠ 0 → st.storedVersion < target →
      env.updateErr = some e →
      PersistScheme reg (some ()) (some ⟨target, name⟩) env st =
        ([Event.readVersion, Event.beginTx, Event.onUpdate st.storedVersion,
          Event.rollback], st, some e)) := by
  have h1 : ¬ (target < 1) := by omega
  constructor
  · intro h0 hc
    simp [PersistScheme, hreg, persistSchemeInternal, finalize, hr, hb, h0,
      hc, h1]
  · intro h0 hlt hu
    simp [PersistScheme, hreg, persistSchemeInternal, finalize, hr, hb, h0,
      hlt, hu, h1]

/-- Witness for C7: create path with `OnCreate` failing. -/
theorem persistScheme_callbackError_w :
    PersistScheme reg0 (some ()) (some ⟨1, "fake"⟩)
        ⟨none, none, some ("SomeError"), none, none⟩ ⟨0⟩ =
      ([Event.readVersion, Event.beginTx, Event.onCreate, Event.rollback],
        ⟨0⟩, some ("SomeError")) :=
  (persistScheme_callbackError reg0 0 "fake"
    ⟨none, none, some ("SomeError"), none, none⟩ ⟨0⟩ 1 ("SomeError") rfl
    (by decide) rfl rfl).1 rfl rfl

/-- Claim C8: `Register` signals an abort-class failure (modelled as a
`some` panic message) on a nil strategy and on a duplicate name, and in
the duplicate case the registry is returned unchanged; by contrast a
`PersistScheme` call with an unregistered strategy name returns a
descriptive recoverable error naming the unknown strategy, with no
panic and no side effect. -/
theorem register_lookup_contract (reg : Registry) (name nameU : String)
    (s : Nat) (env : Env) (st : DBState) (target : Int)
    (hdup : (strategyFromString reg name).isSome = true)
    (hmiss : strategyFromString reg nameU = none)
    (ht : 1 ≤ target) :
    Register reg name none =
      (reg, some ("versioned db: Register strategy is nil")) ∧
    Register reg name (some s) =
      (reg, some ("versioned db: Register called twice for strategy " ++ name)) ∧
    PersistScheme reg (some ()) (some ⟨target, nameU⟩) env st =
      ([], st, some ("versioned db: unknown v scheme \"" ++ nameU ++
        "\" (forgotten import?)")) := by
  have h1 : ¬ (target < 1) := by omega
  refine ⟨rfl, ?_, ?_⟩
  · obtain ⟨tag, htag⟩ := Option.isSome_iff_exists.mp hdup
    simp [Register, htag]
  · simp [PersistScheme, hmiss, h1]

/-- Witness for C8: registry holding "fake"; duplicate registration of
"fake" and a lookup of the unregistered name "nope". -/
theorem register_lookup_contract_w :
    Register reg0 "fake" none =
      (reg0, some ("versioned db: Register strategy is nil")) ∧
    Register reg0 "fake" (some 7) =
      (reg0, some ("versioned db: Register called twice for strategy fake")) ∧
    PersistScheme reg0 (some ()) (some ⟨1, "nope"⟩) okEnv ⟨0⟩ =
      ([], ⟨0⟩, some ("versioned db: unknown v scheme \"nope\" (forgotten import?)")) :=
  register_lookup_contract reg0 "fake" "nope" 7 okEnv ⟨0⟩ 1 rfl rfl (by decide)

/-- Claim C9: idempotence once current. If a valid `PersistScheme` call
succeeds through the create path (stored version 0) or the update path
(stored version nonzero and below target) with all backend operations
succeeding, the resulting stored version is exactly the target and the
returned error is nil; a second call with the same scheme against the
resulting state performs no callback, writes no version, rolls back
and returns success. -/
theorem persistScheme_idempotentOnceCurrent (reg : Registry) (tag : Nat)
    (name : String) (env1 env2 : Env) (st : DBState) (target : Int)
    (hreg : strategyFromString reg name = some tag)
    (ht : 1 ≤ target)
    (h1r : env1.readErr = none) (h1b : env1.beginErr = none)
    (h1s : env1.setVersionErr = none)
    (hpath : (st.storedVersion = 0 ∧ env1.createErr = none) ∨
      (st.storedVersion ≠ 0 ∧ st.storedVersion < target ∧
        env1.updateErr = none))
    (h2r : env2.readErr = none) (h2b : env2.beginErr = none) :
    (PersistScheme reg (some ()) (some ⟨target, name⟩) env1 st).snd =
      (⟨target⟩, none) ∧
    PersistScheme reg (some ()) (some ⟨target, name⟩) env2 ⟨target⟩ =
      ([Event.readVersion, Event.beginTx, Event.rollback], ⟨target⟩, none) := by
  have h1 : ¬ (target < 1) := by omega
  constructor
  · rcases hpath with ⟨h0, hc⟩ | ⟨h0, hlt, hu⟩
    · simp [PersistScheme, hreg, persistSchemeInternal, finalize, h1r, h1b,
        h1s, h0, hc, h1]
    · simp [PersistScheme, hreg, persistSchemeInternal, finalize, h1r, h1b,
        h1s, h0, hlt, hu, h1]
  · exact run_noop_helper reg tag name env2 ⟨target⟩ target hreg ht
      (le_refl target) h2r h2b

/-- Witness for C9: create run from stored version 0 to target 1,
followed by the no-op second run. -/
theorem persistScheme_idempotentOnceCurrent_w :
    (PersistScheme reg0 (some ()) (some ⟨1, "fake"⟩) okEnv ⟨0⟩).snd =
      (⟨1⟩, none) ∧
    PersistScheme reg0 (some ()) (some ⟨1, "fake"⟩) okEnv ⟨1⟩ =
      ([Event.readVersion, Event.beginTx, Event.rollback], ⟨1⟩, none) :=
  persistScheme_idempotentOnceCurrent reg0 0 "fake" okEnv okEnv ⟨0⟩ 1 rfl
    (by decide) rfl rfl rfl (Or.inl ⟨rfl, rfl⟩) rfl rfl

/-- Claim C10: when validation passes and the version read succeeds but
`db.Begin` fails, `PersistScheme` returns the begin error as-is with
neither callback nor `SetVersion` invoked and the stored version
unchanged; the trace records the version read strictly before the
transaction-open attempt. -/
theorem persistScheme_beginError (reg : Registry) (tag : Nat)
    (name : String) (env : Env) (st : DBState) (target : Int) (e : String)
    (hreg : strategyFromString reg name = some tag)
    (ht : 1 ≤ target)
    (hr : env.readErr = none) (hb : env.beginErr = some e) :
    PersistScheme reg (some ()) (some ⟨target, name⟩) env st =
      ([Event.readVersion, Event.beginTx], st, some e) := by
  have h1 : ¬ (target < 1) := by omega
  simp [PersistScheme, hreg, persistSchemeInternal, hr, hb, h1]

/-- Witness for C10: `db.Begin` failing with "SomeError" after a
successful version read. -/
theorem persistScheme_beginError_w :
    PersistScheme reg0 (some ()) (some ⟨1, "fake"⟩)
        ⟨none, some ("SomeError"), none, none, none⟩ ⟨0⟩ =
      ([Event.readVersion, Event.beginTx], ⟨0⟩, some ("SomeError")) :=
  persistScheme_beginError reg0 0 "fake"
    ⟨none, some ("SomeError"), none, none, none⟩ ⟨0⟩ 1 ("SomeError") rfl
    (by decide) rfl rfl
